import Mathlib

/-!
Verification of the foodgram recipe-sharing backend's serializer layer
(`backend/api/serializers.py`), shallowly embedded in Lean.

The relational store is modelled by explicit association lists:
subscriptions and favourites/carts as lists of id pairs, a recipe row as a
record of its tag ids, its ingredient rows and its scalar fields.
Each serializer method is translated into a pure function returning
`Except ApiError` where the Python raises.
-/

namespace Foodgram

/-- HTTP method of the request, as read from `self.context['request'].method`. -/
inductive Method where
  | POST
  | DELETE
  deriving DecidableEq, Repr

/-- An `Ingredient` catalog row: id and name (measurement unit is irrelevant
to the validated logic). -/
structure Ingredient where
  id : Nat
  name : String
  deriving DecidableEq, Repr

/-- One entry of the validated `ingredients` payload: a resolved ingredient
object plus an amount, as produced by `RecipeIngredientSerializer`. -/
structure IngredEntry where
  ingredient : Ingredient
  amount : Nat
  deriving DecidableEq, Repr

/-- A dynamically typed value as found in `self.initial_data['tags']`:
the payload may carry ints or arbitrary other JSON values. -/
inductive PyVal where
  | intVal (n : Int)
  | strVal (s : String)
  | noneVal
  deriving DecidableEq, Repr

/-- Whether `type(tag) is int` holds. -/
def PyVal.isInt : PyVal → Bool
  | intVal _ => true
  | _ => false

/-- The name of the Python type of the value, as rendered by `type(tag)`. -/
def PyVal.typeName : PyVal → String
  | intVal _ => "int"
  | strVal _ => "str"
  | noneVal => "NoneType"

/-- The integer carried by an int value (unused on non-ints). -/
def PyVal.toInt : PyVal → Int
  | intVal n => n
  | _ => 0

/-- Errors raised by the serializer layer.  Each constructor records the
shape of the `detail` the Python code passes to the exception. -/
inductive ApiError where
  | validationErrors (msg : String)
  | validationTags (types : List String)
  | notFoundTags (msg : String)
  | duplicateIngredients (names : List String)
  | negativeIndexing
  deriving DecidableEq, Repr

/-! ## RecipeSerializer.validate_ingredients -/

/-- The list `[obj['ingredient'].id for obj in value]`. -/
def ingredientIds (value : List IngredEntry) : List Nat :=
  value.map (fun e => e.ingredient.id)

/-- The loop of `validate_ingredients`: walk the entries with the set
`unique_ingredients`; a hit discards the id from the set, a miss appends
the ingredient name to `err_obj`.  The set is represented as a duplicate-free
list, so `List.erase` is set removal. -/
def collectDupNames : List IngredEntry → List Nat → List String
  | [], _ => []
  | e :: rest, uniq =>
    if e.ingredient.id ∈ uniq then collectDupNames rest (uniq.erase e.ingredient.id)
    else e.ingredient.name :: collectDupNames rest uniq

/-- `RecipeSerializer.validate_ingredients`: compares the id list against its
deduplication; on a length mismatch it raises a `ValidationError` listing the
names gathered by the loop, otherwise it returns `value` unchanged. -/
def validate_ingredients (value : List IngredEntry) : Except ApiError (List IngredEntry) :=
  let ingredients := ingredientIds value
  let unique_ingredients := ingredients.dedup
  if ingredients.length ≠ unique_ingredients.length then
    Except.error (ApiError.duplicateIngredients (collectDupNames value unique_ingredients))
  else
    Except.ok value

/-- The spec's description of the error list: the first occurrence of each id
is kept, every later repeat contributes its ingredient name. -/
def laterRepeats : List IngredEntry → List Nat → List String
  | [], _ => []
  | e :: rest, seen =>
    if e.ingredient.id ∈ seen then e.ingredient.name :: laterRepeats rest seen
    else laterRepeats rest (e.ingredient.id :: seen)

lemma collectDupNames_eq_laterRepeats (l : List IngredEntry) (s seen : List Nat)
    (hs : s.Nodup) (hmem : ∀ id ∈ ingredientIds l, (id ∈ s ↔ id ∉ seen)) :
    collectDupNames l s = laterRepeats l seen := by
  induction l generalizing s seen with
  | nil => rfl
  | cons e rest ih =>
    have he : e.ingredient.id ∈ ingredientIds (e :: rest) := by
      simp [ingredientIds]
    by_cases h : e.ingredient.id ∈ s
    · have hnotseen : e.ingredient.id ∉ seen := (hmem _ he).mp h
      rw [collectDupNames, laterRepeats, if_pos h, if_neg hnotseen]
      apply ih
      · exact hs.erase _
      · intro id hid
        by_cases hne : id = e.ingredient.id
        · subst hne
          constructor
          · intro habs
            exact absurd habs (hs.not_mem_erase)
          · intro habs
            exact absurd (List.mem_cons_self _ _) habs
        · rw [List.mem_erase_of_ne hne, List.mem_cons]
          have := hmem id (by simp [ingredientIds] at hid ⊢; right; exact hid)
          constructor
          · intro hin habs
            rcases habs with habs | habs
            · exact hne habs
            · exact (this.mp hin) habs
          · intro hnin
            exact this.mpr (fun habs => hnin (Or.inr habs))
    · have hseen : e.ingredient.id ∈ seen := by
        by_contra habs
        exact h ((hmem _ he).mpr habs)
      rw [collectDupNames, laterRepeats, if_neg h, if_pos hseen]
      congr 1
      apply ih
      · exact hs
      · intro id hid
        exact hmem id (by simp [ingredientIds] at hid ⊢; right; exact hid)

lemma validate_ingredients_eq (value : List IngredEntry) :
    validate_ingredients value =
      if (ingredientIds value).Nodup then Except.ok value
      else Except.error (ApiError.duplicateIngredients (laterRepeats value [])) := by
  unfold validate_ingredients
  by_cases h : (ingredientIds value).Nodup
  · rw [if_pos h]
    rw [if_neg]
    simp [List.dedup_eq_self.mpr h]
  · rw [if_neg h]
    rw [if_pos]
    · congr 1
      congr 1
      apply collectDupNames_eq_laterRepeats
      · exact (ingredientIds value).nodup_dedup
      · intro id hid
        simp [List.mem_dedup, hid]
    · intro hlen
      apply h
      have hsub := (ingredientIds value).dedup_sublist
      have := hsub.eq_of_length hlen.symm
      rw [← this]
      exact (ingredientIds value).nodup_dedup

lemma validate_ingredients_isOk (value : List IngredEntry) :
    (validate_ingredients value).isOk = true ↔ (ingredientIds value).Nodup := by
  rw [validate_ingredients_eq]
  by_cases h : (ingredientIds value).Nodup
  · simp [h, Except.isOk, Except.toBool]
  · simp [h, Except.isOk, Except.toBool]

/-! ## FavouriteSerializer.validate and SubscriptionsSerializer.validate -/

/-- `SubscriptionsSerializer.validate`: `pairs` is the subscription table as
(user, follower) pairs, `is_exist` the existence query on it.  The checks run
in source order: already-subscribed, then not-subscribed, then self-subscription. -/
def subscriptions_validate (pairs : List (Nat × Nat)) (method : Method)
    (user follower : Nat) : Except ApiError (Nat × Nat) :=
  let is_exist := (user, follower) ∈ pairs
  if method = Method.POST ∧ is_exist then
    Except.error (ApiError.validationErrors "Пользователь уже подписан.")
  else if method = Method.DELETE ∧ ¬ is_exist then
    Except.error (ApiError.validationErrors "Пользователь не подписан.")
  else if user = follower then
    Except.error (ApiError.validationErrors "Пользователь не может подписаться на себя.")
  else
    Except.ok (user, follower)

/-- `FavouriteSerializer.validate`: `pairs` is the favourite (or cart) table as
(user, recipe) pairs; POST on an existing pair and DELETE on a missing pair
raise, everything else passes `data` through. -/
def favourite_validate (pairs : List (Nat × Nat)) (method : Method)
    (user recipe : Nat) : Except ApiError (Nat × Nat) :=
  let is_exist := (user, recipe) ∈ pairs
  if method = Method.POST ∧ is_exist then
    Except.error (ApiError.validationErrors "Пользователь уже подписан.")
  else if method = Method.DELETE ∧ ¬ is_exist then
    Except.error (ApiError.validationErrors "Пользователь не подписан.")
  else
    Except.ok (user, recipe)

/-! ## Viewer-relative flags -/

/-- The requesting user as seen through `self.context['request'].user`:
an id plus the `is_authenticated` flag (false for the anonymous user). -/
structure Viewer where
  id : Nat
  is_authenticated : Bool
  deriving DecidableEq, Repr

/-- `UserSerializer.get_is_subscribed`: true iff the viewer is authenticated
and a subscription row (user = obj, follower = viewer) exists.  The `&&`
mirrors the short-circuiting `and`, so the existence query is never run for
an anonymous viewer. -/
def get_is_subscribed (viewer : Viewer) (subscriptions : List (Nat × Nat))
    (obj : Nat) : Bool :=
  viewer.is_authenticated && decide ((obj, viewer.id) ∈ subscriptions)

/-- `RecipeSerializer.get_is_favorited`: true iff the viewer is authenticated
and a favourite row (user = viewer, recipe = obj) exists. -/
def get_is_favorited (viewer : Viewer) (favourites : List (Nat × Nat))
    (obj : Nat) : Bool :=
  viewer.is_authenticated && decide ((viewer.id, obj) ∈ favourites)

/-- `RecipeSerializer.get_is_in_shopping_cart`: true iff the viewer is
authenticated and a cart row (user = viewer, recipe = obj) exists. -/
def get_is_in_shopping_cart (viewer : Viewer) (carts : List (Nat × Nat))
    (obj : Nat) : Bool :=
  viewer.is_authenticated && decide ((viewer.id, obj) ∈ carts)

/-! ## RecipeSerializer.create and RecipeSerializer.update -/

/-- The scalar fields of a recipe written by `Recipe.objects.create(**...)`
and `super().update(instance, validated_data)`. -/
structure ScalarFields where
  name : String
  text : String
  cooking_time : Nat
  deriving DecidableEq, Repr

/-- A persisted recipe: its tag associations, its `IngredientRecipe` rows as
(ingredient id, amount) pairs, and its scalar fields. -/
structure RecipeRow where
  tags : List Int
  ingreds : List (Nat × Nat)
  fields : ScalarFields
  deriving DecidableEq, Repr

/-- A create/update payload after field validation: the raw `initial_data`
tag ids (dynamically typed), the validated ingredient entries as
(ingredient id, amount), and the scalar fields. -/
structure Payload where
  tags : List PyVal
  ingredients : List (Nat × Nat)
  fields : ScalarFields
  deriving DecidableEq, Repr

/-- The two exceptions `recipe.tags.add(*tags)` can raise that the
serializer handles. -/
inductive AddTagsErr where
  | integrityError
  | valueError
  deriving DecidableEq, Repr

/-- The tag list read as integers (meaningful when all values are ints). -/
def tagIdsOf (tags : List PyVal) : List Int :=
  tags.map PyVal.toInt

/-- `[type(tag) for tag in tags if type(tag) is not int]`: the type names of
all the non-integer values of the tag list, in order. -/
def nonIntTypes (tags : List PyVal) : List String :=
  (tags.filter (fun t => !t.isInt)).map PyVal.typeName

/-- Models the relational backend of `recipe.tags.add(*tags)`: a value that
is not an int makes the primary-key coercion raise `ValueError`; an int id
absent from the tag table violates the foreign key and raises
`IntegrityError`; otherwise the ids are attached.  `tagTable` is the set of
existing tag ids. -/
def addTags (tagTable : List Int) (tags : List PyVal) : Except AddTagsErr (List Int) :=
  if tags.any (fun t => !t.isInt) then
    Except.error AddTagsErr.valueError
  else if (tagIdsOf tags).any (fun id => !(tagTable.contains id)) then
    Except.error AddTagsErr.integrityError
  else
    Except.ok (tagIdsOf tags)

/-- `RecipeSerializer.create` over a recipe table `db` of (id, row) pairs,
with `newId` the id the store assigns.  The row is inserted first; when
`tags.add` raises, `recipe.delete()` removes it again before the error is
re-raised as `NotFound` (integrity) or `ValidationError` listing the
non-integer types (value); on success the ingredient rows are created and
the final row returned.  The result pairs the outcome with the table
afterwards. -/
def recipe_create (tagTable : List Int) (db : List (Nat × RecipeRow)) (newId : Nat)
    (p : Payload) : Except ApiError Nat × List (Nat × RecipeRow) :=
  let recipe : RecipeRow := { tags := [], ingreds := [], fields := p.fields }
  let db1 := db ++ [(newId, recipe)]
  match addTags tagTable p.tags with
  | Except.error AddTagsErr.integrityError =>
      (Except.error (ApiError.notFoundTags "Один из параметров не найден."),
       db1.filter (fun r => !(r.1 == newId)))
  | Except.error AddTagsErr.valueError =>
      (Except.error (ApiError.validationTags (nonIntTypes p.tags)),
       db1.filter (fun r => !(r.1 == newId)))
  | Except.ok tagIds =>
      (Except.ok newId,
       db1.map (fun r =>
         if r.1 == newId then
           (newId, { tags := tagIds, ingreds := p.ingredients, fields := p.fields })
         else r))

/-- `RecipeSerializer.update` on one recipe row: `instance.tags.clear()` runs
first; a failing `tags.add` re-raises with the tags already cleared and
nothing restored; on success the ingredient associations are cleared,
recreated from the payload, and the scalar fields updated.  The result pairs
the outcome with the row afterwards. -/
def recipe_update (tagTable : List Int) (inst : RecipeRow) (p : Payload) :
    Except ApiError Unit × RecipeRow :=
  let cleared : RecipeRow := { inst with tags := [] }
  match addTags tagTable p.tags with
  | Except.error AddTagsErr.integrityError =>
      (Except.error (ApiError.notFoundTags "Один из параметров не найден."), cleared)
  | Except.error AddTagsErr.valueError =>
      (Except.error (ApiError.validationTags (nonIntTypes p.tags)), cleared)
  | Except.ok tagIds =>
      (Except.ok (),
       { tags := tagIds, ingreds := p.ingredients, fields := p.fields })

/-! ## UserSubscriptionsSerializer.get_recipes -/

/-- The truthiness test `if limit:` — false for `None` and for `0`. -/
def limitTruthy : Option Int → Bool
  | none => false
  | some l => l != 0

/-- Models Django queryset slicing `recipes[:limit]`: a non-negative bound
takes a prefix; querysets reject negative indices with an error. -/
def queryset_slice (recipes : List Nat) (l : Int) : Except ApiError (List Nat) :=
  if l < 0 then Except.error ApiError.negativeIndexing
  else Except.ok (recipes.take l.toNat)

/-- `UserSubscriptionsSerializer.get_recipes`: `limit` is the result of
`int(query_params.get('recipes_limit'))` with the enclosing
`try/except` collapsed to `none` (parameter missing or non-numeric);
`recipes` is `obj.recipes.all()` as a list of recipe ids.  The slice only
runs when `limit` is truthy. -/
def get_recipes (limit : Option Int) (recipes : List Nat) : Except ApiError (List Nat) :=
  if limitTruthy limit then queryset_slice recipes (limit.getD 0)
  else Except.ok recipes

/-- `UserSubscriptionsSerializer.get_recipes_count`: `obj.recipes.count()`. -/
def get_recipes_count (recipes : List Nat) : Nat :=
  recipes.length

/-! ## Claims -/

/-- C1 counterexample: in `SubscriptionsSerializer.validate` the
already-exists check runs before the self-subscription check, so a POST with
user = follower = 1 on a state already holding the pair (1, 1) raises the
already-subscribed error, not the self-subscription one. -/
theorem subscriptions_self_check_counterexample :
    subscriptions_validate [(1, 1)] Method.POST 1 1 =
      Except.error (ApiError.validationErrors "Пользователь уже подписан.") ∧
    ApiError.validationErrors "Пользователь уже подписан." ≠
      ApiError.validationErrors "Пользователь не может подписаться на себя." := by
  exact ⟨rfl, by decide⟩

/-- C1 (amended): the self-subscription check runs after the two existence
checks; whenever the (user, user) pair is absent from the subscription state
(which the data layer guarantees), a subscription-add with user = follower
fails with the self-subscription message. -/
theorem subscriptions_self_add_fails (pairs : List (Nat × Nat)) (user : Nat)
    (hinv : (user, user) ∉ pairs) :
    subscriptions_validate pairs Method.POST user user =
      Except.error (ApiError.validationErrors "Пользователь не может подписаться на себя.") := by
  simp [subscriptions_validate, hinv]

/-- Witness for C1: the empty subscription state, user 1. -/
theorem subscriptions_self_add_fails_witness :
    subscriptions_validate [] Method.POST 1 1 =
      Except.error (ApiError.validationErrors "Пользователь не может подписаться на себя.") :=
  subscriptions_self_add_fails [] 1 (by decide)

/-- C2 counterexample: updating a recipe that has tags [1, 2] with a payload
referencing the nonexistent tag 99 fails with `NotFound`, yet afterwards the
recipe's tag associations are empty — the pre-existing tag set is not
restored, so the state is not unchanged on error. -/
theorem update_failure_clears_tags_counterexample :
    (recipe_update [1, 2] ⟨[1, 2], [(5, 2)], ⟨"r", "t", 10⟩⟩
        ⟨[PyVal.intVal 99], [(5, 4)], ⟨"r2", "t2", 20⟩⟩).1 =
      Except.error (ApiError.notFoundTags "Один из параметров не найден.") ∧
    (recipe_update [1, 2] ⟨[1, 2], [(5, 2)], ⟨"r", "t", 10⟩⟩
        ⟨[PyVal.intVal 99], [(5, 4)], ⟨"r2", "t2", 20⟩⟩).2 ≠
      ⟨[1, 2], [(5, 2)], ⟨"r", "t", 10⟩⟩ := by
  exact ⟨rfl, by decide⟩

/-- C2 (amended): when tag resolution fails during an update the error is
surfaced and nothing of the new payload is persisted, but the write is not
atomic: the recipe's pre-existing tag associations have already been cleared
and are not restored, while its ingredient associations and scalar fields are
unchanged. -/
theorem update_tag_failure_partial_state (tagTable : List Int) (inst : RecipeRow)
    (p : Payload) (e : AddTagsErr)
    (herr : addTags tagTable p.tags = Except.error e) :
    ∃ err : ApiError,
      recipe_update tagTable inst p = (Except.error err, { inst with tags := [] }) := by
  unfold recipe_update
  rw [herr]
  cases e
  · exact ⟨_, rfl⟩
  · exact ⟨_, rfl⟩

/-- Witness for C2: a concrete failing update (nonexistent tag 99). -/
theorem update_tag_failure_partial_state_witness :
    ∃ err : ApiError,
      recipe_update [1, 2] ⟨[1, 2], [(5, 2)], ⟨"r", "t", 10⟩⟩
          ⟨[PyVal.intVal 99], [(5, 4)], ⟨"r2", "t2", 20⟩⟩ =
        (Except.error err, ⟨[], [(5, 2)], ⟨"r", "t", 10⟩⟩) :=
  update_tag_failure_partial_state [1, 2] ⟨[1, 2], [(5, 2)], ⟨"r", "t", 10⟩⟩
    ⟨[PyVal.intVal 99], [(5, 4)], ⟨"r2", "t2", 20⟩⟩ AddTagsErr.integrityError rfl

/-- C3: a payload whose ingredient ids repeat fails with a `ValidationError`
naming exactly the later repeats (the first occurrence of each id is the kept
one), and a payload with pairwise distinct ids passes validation. -/
theorem duplicate_ingredient_validation (value : List IngredEntry) :
    (¬ (ingredientIds value).Nodup →
      validate_ingredients value =
        Except.error (ApiError.duplicateIngredients (laterRepeats value []))) ∧
    ((ingredientIds value).Nodup → validate_ingredients value = Except.ok value) := by
  rw [validate_ingredients_eq]
  by_cases h : (ingredientIds value).Nodup <;> simp [h]

/-- Witness for C3: a duplicated id 5 errs listing the repeat, distinct ids
5, 6 pass. -/
theorem duplicate_ingredient_validation_witness :
    validate_ingredients [⟨⟨5, "salt"⟩, 2⟩, ⟨⟨5, "salt"⟩, 3⟩] =
      Except.error (ApiError.duplicateIngredients
        (laterRepeats [⟨⟨5, "salt"⟩, 2⟩, ⟨⟨5, "salt"⟩, 3⟩] [])) ∧
    validate_ingredients [⟨⟨5, "salt"⟩, 2⟩, ⟨⟨6, "sugar"⟩, 1⟩] =
      Except.ok [⟨⟨5, "salt"⟩, 2⟩, ⟨⟨6, "sugar"⟩, 1⟩] :=
  ⟨(duplicate_ingredient_validation _).1 (by decide),
   (duplicate_ingredient_validation _).2 (by decide)⟩

/-- C4: a create whose tag list is all integers but references an id missing
from the tag table fails with `NotFound` keyed on tags, and the recipe table
afterwards equals the table before — the just-created row is deleted, and no
tag or ingredient association of it survives. -/
theorem create_nonexistent_tag_rolls_back (tagTable : List Int)
    (db : List (Nat × RecipeRow)) (newId : Nat) (p : Payload)
    (hints : ∀ t ∈ p.tags, t.isInt = true)
    (hmiss : ∃ t ∈ p.tags, t.toInt ∉ tagTable)
    (hfresh : ∀ r ∈ db, r.1 ≠ newId) :
    recipe_create tagTable db newId p =
      (Except.error (ApiError.notFoundTags "Один из параметров не найден."), db) := by
  have h1 : p.tags.any (fun t => !t.isInt) = false := by
    rw [List.any_eq_false]
    intro t ht
    simp [hints t ht]
  have h2 : (tagIdsOf p.tags).any (fun id => !(tagTable.contains id)) = true := by
    obtain ⟨t, ht, hmem⟩ := hmiss
    rw [List.any_eq_true]
    exact ⟨t.toInt, List.mem_map.mpr ⟨t, ht, rfl⟩, by simp [hmem]⟩
  have hadd : addTags tagTable p.tags = Except.error AddTagsErr.integrityError := by
    unfold addTags
    rw [h1, h2]
    rfl
  have h3 : ∀ q : RecipeRow,
      (db ++ [(newId, q)]).filter (fun r => !(r.1 == newId)) = db := by
    intro q
    rw [List.filter_append]
    have hdb : db.filter (fun r => !(r.1 == newId)) = db := by
      rw [List.filter_eq_self]
      intro r hr
      simp [hfresh r hr]
    rw [hdb]
    simp
  unfold recipe_create
  rw [hadd]
  simp only
  rw [h3]

/-- Witness for C4: tag table [1, 2], payload tag 99, one pre-existing
recipe 7. -/
theorem create_nonexistent_tag_rolls_back_witness :
    recipe_create [1, 2] [(7, ⟨[1], [], ⟨"a", "b", 1⟩⟩)] 8
        ⟨[PyVal.intVal 99], [(5, 4)], ⟨"r", "t", 10⟩⟩ =
      (Except.error (ApiError.notFoundTags "Один из параметров не найден."),
       [(7, ⟨[1], [], ⟨"a", "b", 1⟩⟩)]) :=
  create_nonexistent_tag_rolls_back [1, 2] [(7, ⟨[1], [], ⟨"a", "b", 1⟩⟩)] 8
    ⟨[PyVal.intVal 99], [(5, 4)], ⟨"r", "t", 10⟩⟩
    (by decide) ⟨PyVal.intVal 99, by decide, by decide⟩ (by decide)

/-- C5: a create or update whose tag list contains a non-integer value fails
with a `ValidationError` keyed on tags listing the Python types of all the
non-integer values, and the payload is not persisted: the create leaves the
recipe table as it was, the update returns with the payload's ingredients and
fields unapplied. -/
theorem non_integer_tags_fail (tagTable : List Int) (db : List (Nat × RecipeRow))
    (newId : Nat) (inst : RecipeRow) (p : Payload)
    (hnonint : ∃ t ∈ p.tags, t.isInt = false)
    (hfresh : ∀ r ∈ db, r.1 ≠ newId) :
    recipe_create tagTable db newId p =
      (Except.error (ApiError.validationTags (nonIntTypes p.tags)), db) ∧
    recipe_update tagTable inst p =
      (Except.error (ApiError.validationTags (nonIntTypes p.tags)),
       { inst with tags := [] }) := by
  have hadd : addTags tagTable p.tags = Except.error AddTagsErr.valueError := by
    obtain ⟨t, ht, hf⟩ := hnonint
    have h1 : p.tags.any (fun t => !t.isInt) = true :=
      List.any_eq_true.mpr ⟨t, ht, by simp [hf]⟩
    unfold addTags
    rw [h1]
    rfl
  have h3 : ∀ q : RecipeRow,
      (db ++ [(newId, q)]).filter (fun r => !(r.1 == newId)) = db := by
    intro q
    rw [List.filter_append]
    have hdb : db.filter (fun r => !(r.1 == newId)) = db := by
      rw [List.filter_eq_self]
      intro r hr
      simp [hfresh r hr]
    rw [hdb]
    simp
  constructor
  · unfold recipe_create
    rw [hadd]
    simp only
    rw [h3]
  · unfold recipe_update
    rw [hadd]

/-- Witness for C5: tag list [str, int, NoneType] on an empty table and on a
concrete instance. -/
theorem non_integer_tags_fail_witness :
    recipe_create [1] [] 8 ⟨[PyVal.strVal "x", PyVal.intVal 1, PyVal.noneVal],
        [(5, 4)], ⟨"r", "t", 10⟩⟩ =
      (Except.error (ApiError.validationTags
        (nonIntTypes [PyVal.strVal "x", PyVal.intVal 1, PyVal.noneVal])), []) ∧
    recipe_update [1] ⟨[1], [(5, 2)], ⟨"a", "b", 1⟩⟩
        ⟨[PyVal.strVal "x", PyVal.intVal 1, PyVal.noneVal], [(5, 4)], ⟨"r", "t", 10⟩⟩ =
      (Except.error (ApiError.validationTags
        (nonIntTypes [PyVal.strVal "x", PyVal.intVal 1, PyVal.noneVal])),
       ⟨[], [(5, 2)], ⟨"a", "b", 1⟩⟩) :=
  non_integer_tags_fail [1] [] 8 ⟨[1], [(5, 2)], ⟨"a", "b", 1⟩⟩
    ⟨[PyVal.strVal "x", PyVal.intVal 1, PyVal.noneVal], [(5, 4)], ⟨"r", "t", 10⟩⟩
    ⟨PyVal.strVal "x", by decide, by decide⟩ (by decide)

/-- C6 counterexample: a `recipes_limit` that parses as 0 is falsy in
`if limit:`, so the slice never runs and the full list comes back, not the
first 0 recipes the claim promises. -/
theorem recipes_limit_zero_counterexample :
    get_recipes (some 0) [10] = Except.ok [10] ∧
    get_recipes (some 0) [10] ≠ Except.ok (List.take (Int.toNat 0) [10]) := by
  refine ⟨rfl, fun h => ?_⟩
  exact absurd (Except.ok.inj h) (by decide)

/-- C6 (amended): a `recipes_limit` parsing as a positive N caps the nested
list to the first N recipes (all of them when fewer); a limit parsing as 0,
a missing parameter or a non-numeric one yield the full list; and
`recipes_count` is the total count. -/
theorem recipes_limit_behavior (recipes : List Nat) :
    (∀ l : Int, 0 < l →
      get_recipes (some l) recipes = Except.ok (recipes.take l.toNat)) ∧
    get_recipes (some 0) recipes = Except.ok recipes ∧
    get_recipes none recipes = Except.ok recipes ∧
    get_recipes_count recipes = recipes.length := by
  refine ⟨?_, rfl, rfl, rfl⟩
  intro l hl
  have h0 : l ≠ 0 := ne_of_gt hl
  simp [get_recipes, limitTruthy, queryset_slice, h0, not_lt.mpr (le_of_lt hl)]

/-- Witness for C6: limit 2 over three recipes takes the first two. -/
theorem recipes_limit_behavior_witness :
    get_recipes (some 2) [10, 11, 12] = Except.ok ([10, 11, 12].take (Int.toNat 2)) :=
  (recipes_limit_behavior [10, 11, 12]).1 2 (by decide)

/-- C7: favorite/cart validation — a POST (add) on an existing (user, recipe)
pair fails with the already message and on a missing pair passes; a DELETE
(remove) on a missing pair fails with the not message and on an existing pair
passes. -/
theorem favourite_add_remove_validation (pairs : List (Nat × Nat))
    (user recipe : Nat) :
    ((user, recipe) ∈ pairs →
      favourite_validate pairs Method.POST user recipe =
        Except.error (ApiError.validationErrors "Пользователь уже подписан.")) ∧
    ((user, recipe) ∉ pairs →
      favourite_validate pairs Method.POST user recipe = Except.ok (user, recipe)) ∧
    ((user, recipe) ∉ pairs →
      favourite_validate pairs Method.DELETE user recipe =
        Except.error (ApiError.validationErrors "Пользователь не подписан.")) ∧
    ((user, recipe) ∈ pairs →
      favourite_validate pairs Method.DELETE user recipe = Except.ok (user, recipe)) := by
  refine ⟨fun h => ?_, fun h => ?_, fun h => ?_, fun h => ?_⟩ <;>
    simp [favourite_validate, h]

/-- Witness for C7: a second add of (1, 10) fails, a remove of the
never-added (1, 10) fails. -/
theorem favourite_add_remove_validation_witness :
    favourite_validate [(1, 10)] Method.POST 1 10 =
      Except.error (ApiError.validationErrors "Пользователь уже подписан.") ∧
    favourite_validate [] Method.DELETE 1 10 =
      Except.error (ApiError.validationErrors "Пользователь не подписан.") :=
  ⟨(favourite_add_remove_validation [(1, 10)] 1 10).1 (by decide),
   (favourite_add_remove_validation [] 1 10).2.2.1 (by decide)⟩

/-- C8: a successful update (all tag values integers, all present in the tag
table) leaves the recipe with exactly the payload's tag set, ingredient rows
and scalar fields — old associations fully replaced, never merged. -/
theorem update_replaces_associations (tagTable : List Int) (inst : RecipeRow)
    (p : Payload)
    (hints : ∀ t ∈ p.tags, t.isInt = true)
    (hin : ∀ t ∈ p.tags, t.toInt ∈ tagTable) :
    recipe_update tagTable inst p =
      (Except.ok (),
       { tags := tagIdsOf p.tags, ingreds := p.ingredients, fields := p.fields }) := by
  have h1 : p.tags.any (fun t => !t.isInt) = false := by
    rw [List.any_eq_false]
    intro t ht
    simp [hints t ht]
  have h2 : (tagIdsOf p.tags).any (fun id => !(tagTable.contains id)) = false := by
    rw [List.any_eq_false]
    intro id hid
    obtain ⟨t, ht, rfl⟩ := List.mem_map.mp hid
    simp [hin t ht]
  have hadd : addTags tagTable p.tags = Except.ok (tagIdsOf p.tags) := by
    unfold addTags
    rw [h1, h2]
    rfl
  unfold recipe_update
  rw [hadd]

/-- Witness for C8: the spec's scenario — a recipe with tags [1, 2] and one
ingredient (5, amount 2), updated with tags [3] and ingredient (5, amount 4),
ends with exactly tag 3 and exactly one ingredient row of amount 4. -/
theorem update_replaces_associations_witness :
    recipe_update [1, 2, 3] ⟨[1, 2], [(5, 2)], ⟨"r", "t", 10⟩⟩
        ⟨[PyVal.intVal 3], [(5, 4)], ⟨"r2", "t2", 20⟩⟩ =
      (Except.ok (), ⟨[3], [(5, 4)], ⟨"r2", "t2", 20⟩⟩) :=
  update_replaces_associations [1, 2, 3] ⟨[1, 2], [(5, 2)], ⟨"r", "t", 10⟩⟩
    ⟨[PyVal.intVal 3], [(5, 4)], ⟨"r2", "t2", 20⟩⟩ (by decide) (by decide)

/-- C9: an anonymous viewer (is_authenticated = false) always gets
is_subscribed = false, is_favorited = false and is_in_shopping_cart = false,
whatever subscription, favourite and cart rows exist; the short-circuiting
conjunction never touches the store, so no error is raised. -/
theorem anonymous_viewer_flags_false (viewer : Viewer)
    (subscriptions favourites carts : List (Nat × Nat)) (author recipe : Nat)
    (hanon : viewer.is_authenticated = false) :
    get_is_subscribed viewer subscriptions author = false ∧
    get_is_favorited viewer favourites recipe = false ∧
    get_is_in_shopping_cart viewer carts recipe = false := by
  simp [get_is_subscribed, get_is_favorited, get_is_in_shopping_cart, hanon]

/-- Witness for C9: anonymous viewer 1 with matching rows present in all
three tables still sees all three flags false. -/
theorem anonymous_viewer_flags_false_witness :
    get_is_subscribed ⟨1, false⟩ [(2, 1)] 2 = false ∧
    get_is_favorited ⟨1, false⟩ [(1, 10)] 10 = false ∧
    get_is_in_shopping_cart ⟨1, false⟩ [(1, 10)] 10 = false :=
  anonymous_viewer_flags_false ⟨1, false⟩ [(2, 1)] [(1, 10)] [(1, 10)] 2 10 rfl

/-- C10: on a payload with pairwise distinct ingredient ids the validator is
the identity (same entries, order and amounts, no error), and its pass/fail
outcome depends only on the multiset of ingredient ids: two payloads whose id
lists are permutations of one another (in particular, equal ids with
different amounts) pass or fail together. -/
theorem validate_ingredients_id_determined (v w : List IngredEntry)
    (hperm : (ingredientIds v).Perm (ingredientIds w)) :
    ((ingredientIds v).Nodup → validate_ingredients v = Except.ok v) ∧
    ((validate_ingredients v).isOk = true ↔ (validate_ingredients w).isOk = true) := by
  constructor
  · intro h
    rw [validate_ingredients_eq, if_pos h]
  · rw [validate_ingredients_isOk, validate_ingredients_isOk]
    exact hperm.nodup_iff

/-- Witness for C10: the singleton id 5 with amount 2 next to amount 4. -/
theorem validate_ingredients_id_determined_witness :
    validate_ingredients [⟨⟨5, "salt"⟩, 2⟩] = Except.ok [⟨⟨5, "salt"⟩, 2⟩] ∧
    ((validate_ingredients [⟨⟨5, "salt"⟩, 2⟩]).isOk = true ↔
      (validate_ingredients [⟨⟨5, "salt"⟩, 4⟩]).isOk = true) :=
  ⟨(validate_ingredients_id_determined [⟨⟨5, "salt"⟩, 2⟩] [⟨⟨5, "salt"⟩, 4⟩]
      (by decide)).1 (by decide),
   (validate_ingredients_id_determined [⟨⟨5, "salt"⟩, 2⟩] [⟨⟨5, "salt"⟩, 4⟩]
      (by decide)).2⟩

end Foodgram
